import Mathlib

/-!
Verification development for the database-race benchmark orchestration core.

Shallow embedding of the Rust sources:
  - common/src/models.rs        : the data model records
  - common/src/benchmark.rs     : measurement engine, data generator, trait
    DatabaseBenchmark with its default run_all_benchmarks
  - common/src/server.rs        : control-plane handlers and snapshot slot
  - benchmarks/sqlite/src/sqlite_benchmark.rs,
    benchmarks/duckdb/src/duckdb_benchmark.rs,
    benchmarks/rocksdb/src/rocksdb_benchmark.rs : backend adapters
    (test-data generation, cleanup, cpu-count setters)

Modelling conventions:
  - f64 values that the code only builds by integer-to-float conversion and
    division by 100 or 1000 are represented exactly as rationals.
  - Randomness is explicit: an Rng record carries the streams of draws the
    rand crate and Uuid::new_v4 would produce, together with cursors. The
    rand contract gen_range(lo..hi) is modelled as returning
    lo + draw % (hi - lo), which realises exactly the guaranteed interval.
  - Uuid::new_v4 is modelled as drawing the next 128-bit value from the
    uuid entropy stream.
  - Fallible Rust code returning anyhow::Result is embedded with Except,
    a Rust panic site (index out of bounds, modulo by zero) with Option.
-/

namespace DBRace

/-- 128-bit random identifier (uuid crate, v4), as a natural number below 2^128. -/
abbrev Uuid := Nat

/-- Timestamps (chrono Utc::now) are opaque to every claim; a natural number. -/
abbrev Timestamp := Nat

/-- Explicit randomness: the streams of values that the process entropy
sources give out, with one cursor per stream. -/
structure Rng where
  uuidSeq : Nat → Nat
  uuidIdx : Nat
  natSeq : Nat → Nat
  natIdx : Nat
  boolSeq : Nat → Bool
  boolIdx : Nat

/-- An adversarial entropy source: every draw gives zero / false. -/
def constRng : Rng :=
  { uuidSeq := fun _ => 0, uuidIdx := 0,
    natSeq := fun _ => 0, natIdx := 0,
    boolSeq := fun _ => false, boolIdx := 0 }

/-- A collision-free entropy source: the uuid stream is the identity. -/
def idRng : Rng :=
  { uuidSeq := fun i => i, uuidIdx := 0,
    natSeq := fun _ => 0, natIdx := 0,
    boolSeq := fun _ => false, boolIdx := 0 }

/-- Uuid::new_v4 draws the next 128-bit value from the entropy stream. -/
def Rng.nextUuid (r : Rng) : Uuid × Rng :=
  (r.uuidSeq r.uuidIdx % 2 ^ 128, { r with uuidIdx := r.uuidIdx + 1 })

/-- rand gen_range(lo..hi): a uniform draw in [lo, hi), modelled by the
interval guarantee of the rand crate applied to the next raw draw. -/
def genRange (lo hi : Nat) (r : Rng) : Nat × Rng :=
  (lo + r.natSeq r.natIdx % (hi - lo), { r with natIdx := r.natIdx + 1 })

/-- rand gen_bool(p): the next draw of the boolean stream. -/
def genBool (r : Rng) : Bool × Rng :=
  (r.boolSeq r.boolIdx, { r with boolIdx := r.boolIdx + 1 })

/-! ## Data model (common/src/models.rs) -/

structure User where
  id : Uuid
  name : String
  email : String
  created_at : Timestamp
  active : Bool
  deriving DecidableEq, Repr

structure Product where
  id : Uuid
  name : String
  description : String
  price : ℚ
  stock : Int
  created_at : Timestamp
  deriving DecidableEq, Repr

structure Order where
  id : Uuid
  user_id : Uuid
  product_id : Uuid
  quantity : Int
  total_price : ℚ
  created_at : Timestamp
  deriving DecidableEq, Repr

structure BenchmarkResult where
  database : String
  test_name : String
  operations : Nat
  duration_ms : Nat
  operations_per_second : ℚ
  cpu_count : Nat
  timestamp : Timestamp
  deriving DecidableEq, Repr

structure BenchmarkResults where
  database : String
  results : List BenchmarkResult
  timestamp : Timestamp
  deriving DecidableEq, Repr

/-- Placeholder entity used only to give list indexing a default value in
branches that are guarded against. -/
def dummyUser : User :=
  { id := 0, name := "", email := "", created_at := 0, active := false }

def dummyProduct : Product :=
  { id := 0, name := "", description := "", price := 0, stock := 0, created_at := 0 }

def dummyOrder : Order :=
  { id := 0, user_id := 0, product_id := 0, quantity := 0, total_price := 0, created_at := 0 }

/-! ## Data generator (common/src/benchmark.rs, lines 142-180) -/

/-- generate_random_user: fresh uuid, templated name and email with a draw in
[1000, 9999), creation time now, active flag from gen_bool(0.9). -/
def generate_random_user (now : Timestamp) (r : Rng) : User × Rng :=
  let (id, r) := r.nextUuid
  let (n1, r) := genRange 1000 9999 r
  let (n2, r) := genRange 1000 9999 r
  let (a, r) := genBool r
  ({ id := id,
     name := "User " ++ toString n1,
     email := "user" ++ toString n2 ++ "@example.com",
     created_at := now,
     active := a }, r)

/-- generate_random_product: fresh uuid, templated name and description,
price = gen_range(100..10000) as f64 / 100.0, stock = gen_range(0..1000). -/
def generate_random_product (now : Timestamp) (r : Rng) : Product × Rng :=
  let (id, r) := r.nextUuid
  let (n1, r) := genRange 1000 9999 r
  let (n2, r) := genRange 1000 9999 r
  let (cents, r) := genRange 100 10000 r
  let (stock, r) := genRange 0 1000 r
  ({ id := id,
     name := "Product " ++ toString n1,
     description := "Description for product " ++ toString n2,
     price := (cents : ℚ) / 100,
     stock := (stock : Int),
     created_at := now }, r)

/-- generate_random_order: quantity = gen_range(1..10),
price = gen_range(1000..10000) as f64 / 100.0, then a fresh uuid;
user_id and product_id are taken from the caller unchanged and
total_price = price * quantity. -/
def generate_random_order (user_id product_id : Uuid) (now : Timestamp) (r : Rng) :
    Order × Rng :=
  let (quantity, r) := genRange 1 10 r
  let (price, r) := genRange 1000 10000 r
  let (id, r) := r.nextUuid
  ({ id := id,
     user_id := user_id,
     product_id := product_id,
     quantity := (quantity : Int),
     total_price := ((price : ℚ) / 100) * (quantity : ℚ),
     created_at := now }, r)

/-! ## Measurement engine (common/src/benchmark.rs, lines 109-139) -/

/-- measure_execution: awaits the wrapped work; on its failure the error is
propagated unmodified. On success the elapsed Duration (here: the elapsed
nanoseconds) is converted by as_millis and the cast to u64
(division by 10^6 then reduction mod 2^64), and throughput is derived:
operations / (duration_ms / 1000) when duration_ms > 0, else operations. -/
def measure_execution {ε : Type} (database_name test_name : String)
    (operations cpu_count : Nat) (elapsed_ns : Nat) (now : Timestamp)
    (work : Except ε Unit) : Except ε BenchmarkResult :=
  match work with
  | .error e => .error e
  | .ok () =>
    let duration_ms : Nat := elapsed_ns / 1000000 % 2 ^ 64
    let operations_per_second : ℚ :=
      if duration_ms > 0 then
        (operations : ℚ) / ((duration_ms : ℚ) / 1000)
      else
        (operations : ℚ)
    .ok { database := database_name,
          test_name := test_name,
          operations := operations,
          duration_ms := duration_ms,
          operations_per_second := operations_per_second,
          cpu_count := cpu_count,
          timestamp := now }

/-! ## Test-data batch generation
(benchmarks/sqlite lines 141-158, duckdb lines 133-149, rocksdb lines
120-137: the generation logic is textually identical in the three adapters) -/

/-- (0..count).map(|_| gen(..)).collect(): run a stateful generator count
times, threading the rng. -/
def genList {α : Type} (gen : Rng → α × Rng) : Nat → Rng → List α × Rng
  | 0, r => ([], r)
  | Nat.succ k, r =>
    let (x, r) := gen r
    let (xs, r) := genList gen k r
    (x :: xs, r)

/-- The order-generation loop: for i in 0..count, take
users[i % users.len()] and products[i % products.len()] and generate one
order. A modulo by a zero length or an out-of-bounds index is a Rust panic,
embedded as none. The first argument i is the current loop index, the
second the number of remaining iterations. -/
def genOrdersAux (users : List User) (products : List Product) (now : Timestamp) :
    Nat → Nat → Rng → Option (List Order × Rng)
  | _, 0, r => some ([], r)
  | i, Nat.succ rem, r =>
    if users.length = 0 ∨ products.length = 0 then
      none
    else
      let user_id := (users.getD (i % users.length) dummyUser).id
      let product_id := (products.getD (i % products.length) dummyProduct).id
      let (o, r) := generate_random_order user_id product_id now r
      match genOrdersAux users products now (i + 1) rem r with
      | none => none
      | some (os, r) => some (o :: os, r)

/-- The shared generation phase of generate_test_data: count users first,
then count products, then the order loop pairing them by index modulo the
collection lengths. -/
def generate_batch (count : Nat) (now : Timestamp) (r : Rng) :
    Option ((List User × List Product × List Order) × Rng) :=
  let (users, r) := genList (generate_random_user now) count r
  let (products, r) := genList (generate_random_product now) count r
  match genOrdersAux users products now 0 count r with
  | none => none
  | some (orders, r) => some ((users, products, orders), r)

def batchUsers (b : Option ((List User × List Product × List Order) × Rng)) :
    List User :=
  match b with
  | none => []
  | some ((us, _, _), _) => us

def batchProducts (b : Option ((List User × List Product × List Order) × Rng)) :
    List Product :=
  match b with
  | none => []
  | some ((_, ps, _), _) => ps

def batchOrders (b : Option ((List User × List Product × List Order) × Rng)) :
    List Order :=
  match b with
  | none => []
  | some ((_, _, os), _) => os

/-! ## SQLite adapter state (benchmarks/sqlite/src/sqlite_benchmark.rs) -/

/-- The three relational tables of the sqlite (and duckdb) schema. -/
structure SqliteDb where
  users : List User
  products : List Product
  orders : List Order
  deriving DecidableEq, Repr

def emptySqliteDb : SqliteDb := { users := [], products := [], orders := [] }

namespace SqliteBenchmark

/-- generate_test_data: build the batch, then insert all of it inside one
transaction (users, then products, then orders); none is the panic of the
index expressions in the order loop. -/
def generate_test_data (st : SqliteDb) (count : Nat) (now : Timestamp) (r : Rng) :
    Option (SqliteDb × Rng) :=
  match generate_batch count now r with
  | none => none
  | some ((us, ps, os), r) =>
    some ({ users := st.users ++ us,
            products := st.products ++ ps,
            orders := st.orders ++ os }, r)

/-- cleanup: one transaction issuing DELETE FROM orders, DELETE FROM
products, DELETE FROM users; a DELETE without WHERE removes every row and
succeeds also on an empty table. -/
def cleanup (st : SqliteDb) : Except Unit SqliteDb :=
  let st := { st with orders := [] }
  let st := { st with products := [] }
  let st := { st with users := [] }
  .ok st

end SqliteBenchmark

/-! ## DuckDB adapter state (benchmarks/duckdb/src/duckdb_benchmark.rs) -/

namespace DuckdbBenchmark

/-- generate_test_data: identical generation phase, then one transaction
inserting users, products, orders. -/
def generate_test_data (st : SqliteDb) (count : Nat) (now : Timestamp) (r : Rng) :
    Option (SqliteDb × Rng) :=
  match generate_batch count now r with
  | none => none
  | some ((us, ps, os), r) =>
    some ({ users := st.users ++ us,
            products := st.products ++ ps,
            orders := st.orders ++ os }, r)

/-- cleanup: DELETE FROM orders, DELETE FROM products, DELETE FROM users. -/
def cleanup (st : SqliteDb) : Except Unit SqliteDb :=
  let st := { st with orders := [] }
  let st := { st with products := [] }
  let st := { st with users := [] }
  .ok st

end DuckdbBenchmark

/-! ## RocksDB adapter state (benchmarks/rocksdb/src/rocksdb_benchmark.rs) -/

/-- The seven column families: three entity stores keyed by the rendered
uuid, and four index families whose keys pair the indexed value with the
entity id and whose values are empty. -/
structure RocksDb where
  users_cf : List (Uuid × User)
  products_cf : List (Uuid × Product)
  orders_cf : List (Uuid × Order)
  users_email_index_cf : List ((String × Uuid) × Unit)
  products_name_index_cf : List ((String × Uuid) × Unit)
  orders_user_id_index_cf : List ((Uuid × Uuid) × Unit)
  orders_product_id_index_cf : List ((Uuid × Uuid) × Unit)
  deriving DecidableEq

def emptyRocksDb : RocksDb :=
  { users_cf := [], products_cf := [], orders_cf := [],
    users_email_index_cf := [], products_name_index_cf := [],
    orders_user_id_index_cf := [], orders_product_id_index_cf := [] }

/-- batch.delete_cf on one key: every entry under that key is removed. -/
def eraseKey {κ α : Type} [DecidableEq κ] (k : κ) (m : List (κ × α)) :
    List (κ × α) :=
  m.filter (fun p => p.1 ≠ k)

/-- The cleanup loop body for one column family: iterate over all current
keys collecting them into one write batch of deletions, then apply it. -/
def clearCf {κ α : Type} [DecidableEq κ] (cf : List (κ × α)) : List (κ × α) :=
  (cf.map Prod.fst).foldl (fun m k => eraseKey k m) cf

namespace RocksDBBenchmark

/-- generate_test_data: identical generation phase, then one WriteBatch of
puts: each user under its id plus an email-index entry, each product plus a
name-index entry, each order plus user-id and product-id index entries. -/
def generate_test_data (st : RocksDb) (count : Nat) (now : Timestamp) (r : Rng) :
    Option (RocksDb × Rng) :=
  match generate_batch count now r with
  | none => none
  | some ((us, ps, os), r) =>
    some ({ users_cf := st.users_cf ++ us.map (fun u => (u.id, u)),
            products_cf := st.products_cf ++ ps.map (fun p => (p.id, p)),
            orders_cf := st.orders_cf ++ os.map (fun o => (o.id, o)),
            users_email_index_cf :=
              st.users_email_index_cf ++ us.map (fun u => ((u.email, u.id), ())),
            products_name_index_cf :=
              st.products_name_index_cf ++ ps.map (fun p => ((p.name, p.id), ())),
            orders_user_id_index_cf :=
              st.orders_user_id_index_cf ++ os.map (fun o => ((o.user_id, o.id), ())),
            orders_product_id_index_cf :=
              st.orders_product_id_index_cf ++ os.map (fun o => ((o.product_id, o.id), ())) },
          r)

/-- cleanup: for each of the seven column families, iterate over all keys
and delete them in one write batch. -/
def cleanup (st : RocksDb) : Except Unit RocksDb :=
  .ok { users_cf := clearCf st.users_cf,
        products_cf := clearCf st.products_cf,
        orders_cf := clearCf st.orders_cf,
        users_email_index_cf := clearCf st.users_email_index_cf,
        products_name_index_cf := clearCf st.products_name_index_cf,
        orders_user_id_index_cf := clearCf st.orders_user_id_index_cf,
        orders_product_id_index_cf := clearCf st.orders_product_id_index_cf }

end RocksDBBenchmark

/-! ## The DatabaseBenchmark trait and its default run_all_benchmarks
(common/src/benchmark.rs, lines 17-106) -/

/-- The trait object: lifecycle hooks and the eleven timed operations,
polymorphic over the backend state type and the backend error type. An
operation mutates the backend store, so it is embedded with explicit state
passing. -/
structure Backend (σ ε : Type) where
  database_name : String
  init : σ → Except ε σ
  generate_test_data : Nat → σ → Except ε σ
  cleanup : σ → Except ε σ
  insert_single_many_times : Nat → σ → Except ε (BenchmarkResult × σ)
  insert_many_at_once : Nat → σ → Except ε (BenchmarkResult × σ)
  read_by_id_many_times : Nat → σ → Except ε (BenchmarkResult × σ)
  read_many_by_ids : Nat → σ → Except ε (BenchmarkResult × σ)
  read_by_column_search : Nat → σ → Except ε (BenchmarkResult × σ)
  read_with_one_join : Nat → σ → Except ε (BenchmarkResult × σ)
  read_with_two_joins : Nat → σ → Except ε (BenchmarkResult × σ)
  update_single_field_one_entry : Nat → σ → Except ε (BenchmarkResult × σ)
  update_single_field_many_entries : Nat → σ → Except ε (BenchmarkResult × σ)
  update_multiple_fields_one_entry : Nat → σ → Except ε (BenchmarkResult × σ)
  update_multiple_fields_many_entries : Nat → σ → Except ε (BenchmarkResult × σ)

/-- The ? operator on one timed operation: an error is returned as is, a
success feeds result and new state to the continuation. -/
def andThen {σ ε β : Type} (x : Except ε (BenchmarkResult × σ))
    (f : BenchmarkResult → σ → Except ε β) : Except ε β :=
  match x with
  | .error e => .error e
  | .ok (res, s) => f res s

/-- run_all_benchmarks: the default trait method, running the eleven
operations in the fixed order with their hard-coded counts
(20_00, 10_00, 10_00, 20_00, 20_00, 20_00, 20_00, 5_00, 10_00, 2_00,
50_00) and collecting the eleven results into one snapshot. -/
def run_all_benchmarks {σ ε : Type} (b : Backend σ ε) (now : Timestamp) (s : σ) :
    Except ε (BenchmarkResults × σ) :=
  andThen (b.insert_single_many_times 2000 s) fun r1 s =>
  andThen (b.insert_many_at_once 1000 s) fun r2 s =>
  andThen (b.read_by_id_many_times 1000 s) fun r3 s =>
  andThen (b.read_many_by_ids 2000 s) fun r4 s =>
  andThen (b.read_by_column_search 2000 s) fun r5 s =>
  andThen (b.read_with_one_join 2000 s) fun r6 s =>
  andThen (b.read_with_two_joins 2000 s) fun r7 s =>
  andThen (b.update_single_field_one_entry 500 s) fun r8 s =>
  andThen (b.update_single_field_many_entries 1000 s) fun r9 s =>
  andThen (b.update_multiple_fields_one_entry 200 s) fun r10 s =>
  andThen (b.update_multiple_fields_many_entries 5000 s) fun r11 s =>
  .ok ({ database := b.database_name,
         results := [r1, r2, r3, r4, r5, r6, r7, r8, r9, r10, r11],
         timestamp := now }, s)

/-! ## Control-plane server (common/src/server.rs) -/

/-- The two status codes the handlers can fail with. -/
inductive StatusCode : Type
  | internalServerError
  | notFound
  deriving DecidableEq, Repr

/-- AppState: the backend store plus the mutex-guarded snapshot slot,
Mutex::new(None) at server start. -/
structure ServerState (σ : Type) where
  dbState : σ
  stored : Option BenchmarkResults

/-- The state the server starts in: no snapshot yet. -/
def initialServerState {σ : Type} (s : σ) : ServerState σ :=
  { dbState := s, stored := none }

/-- The store step of a successful run: the slot is overwritten with the
new snapshot. -/
def storeSnapshot {σ : Type} (res : BenchmarkResults) (st : ServerState σ) :
    ServerState σ :=
  { st with stored := some res }

/-- run_benchmark_handler: init, cleanup, generate_test_data(1000),
run_all_benchmarks, each failure mapped to 500 with the slot untouched; on
success the snapshot is stored and returned. -/
def run_benchmark_handler {σ ε : Type} (b : Backend σ ε) (now : Timestamp)
    (st : ServerState σ) : Except StatusCode BenchmarkResults × ServerState σ :=
  match b.init st.dbState with
  | .error _ => (.error .internalServerError, st)
  | .ok s1 =>
    match b.cleanup s1 with
    | .error _ => (.error .internalServerError, { st with dbState := s1 })
    | .ok s2 =>
      match b.generate_test_data 1000 s2 with
      | .error _ => (.error .internalServerError, { st with dbState := s2 })
      | .ok s3 =>
        match run_all_benchmarks b now s3 with
        | .error _ => (.error .internalServerError, { st with dbState := s3 })
        | .ok (results, s4) =>
          (.ok results, storeSnapshot results { st with dbState := s4 })

/-- results_handler: the stored snapshot if one exists, else 404. -/
def results_handler {σ : Type} (st : ServerState σ) :
    Except StatusCode BenchmarkResults :=
  match st.stored with
  | some results => .ok results
  | none => .error .notFound

/-! ## Per-backend cpu-count configuration
(sqlite lines 243-249, rocksdb lines 244-250, duckdb lines 229-244) -/

/-- The sqlite adapter struct: the db path is irrelevant to every claim,
the cpu_count field is the whole configurable state. -/
structure SqliteStruct where
  cpu_count : Nat
  deriving DecidableEq, Repr

namespace SqliteBenchmark

def set_cpu_count (st : SqliteStruct) (count : Nat) : SqliteStruct :=
  { st with cpu_count := count }

def get_cpu_count (st : SqliteStruct) : Nat :=
  st.cpu_count

end SqliteBenchmark

/-- The rocksdb adapter struct, same shape. -/
structure RocksStruct where
  cpu_count : Nat
  deriving DecidableEq, Repr

namespace RocksDBBenchmark

def set_cpu_count (st : RocksStruct) (count : Nat) : RocksStruct :=
  { st with cpu_count := count }

def get_cpu_count (st : RocksStruct) : Nat :=
  st.cpu_count

end RocksDBBenchmark

/-- The duckdb adapter struct: the cpu_count field, the threads setting of
the underlying connection, and the queue of detached background tasks that
have been spawned but not yet run (each task records the count it will
apply with SET threads). -/
structure DuckStruct where
  cpu_count : Nat
  conn_threads : Nat
  pending_tasks : List Nat
  deriving DecidableEq, Repr

namespace DuckdbBenchmark

/-- set_cpu_count: stores the count, then spawns a detached task that will
execute SET threads TO count; the call returns without running it. -/
def set_cpu_count (st : DuckStruct) (count : Nat) : DuckStruct :=
  { st with cpu_count := count, pending_tasks := st.pending_tasks ++ [count] }

def get_cpu_count (st : DuckStruct) : Nat :=
  st.cpu_count

/-- The scheduler eventually runs the oldest pending detached task, which
applies its SET threads statement to the connection. -/
def run_one_pending (st : DuckStruct) : DuckStruct :=
  match st.pending_tasks with
  | [] => st
  | t :: ts => { st with conn_threads := t, pending_tasks := ts }

end DuckdbBenchmark

/-! ## Specification predicates and concrete fixtures -/

/-- The successful execution chain of run_all_benchmarks: each of the
eleven operations succeeds, in the fixed order, at its hard-coded count,
each starting from the state the previous one produced; the snapshot is
built from the eleven results in that order. -/
def RunChain {σ ε : Type} (b : Backend σ ε) (now : Timestamp) (s : σ)
    (res : BenchmarkResults) (sf : σ) : Prop :=
  ∃ r1 s1, b.insert_single_many_times 2000 s = .ok (r1, s1) ∧
  ∃ r2 s2, b.insert_many_at_once 1000 s1 = .ok (r2, s2) ∧
  ∃ r3 s3, b.read_by_id_many_times 1000 s2 = .ok (r3, s3) ∧
  ∃ r4 s4, b.read_many_by_ids 2000 s3 = .ok (r4, s4) ∧
  ∃ r5 s5, b.read_by_column_search 2000 s4 = .ok (r5, s5) ∧
  ∃ r6 s6, b.read_with_one_join 2000 s5 = .ok (r6, s6) ∧
  ∃ r7 s7, b.read_with_two_joins 2000 s6 = .ok (r7, s7) ∧
  ∃ r8 s8, b.update_single_field_one_entry 500 s7 = .ok (r8, s8) ∧
  ∃ r9 s9, b.update_single_field_many_entries 1000 s8 = .ok (r9, s9) ∧
  ∃ r10 s10, b.update_multiple_fields_one_entry 200 s9 = .ok (r10, s10) ∧
  ∃ r11 s11, b.update_multiple_fields_many_entries 5000 s10 = .ok (r11, s11) ∧
  ({ database := b.database_name,
     results := [r1, r2, r3, r4, r5, r6, r7, r8, r9, r10, r11],
     timestamp := now } : BenchmarkResults) = res ∧ s11 = sf

/-- Referential consistency of one generated batch: counts come out right,
order i points at user i mod count and product i mod count, and every
order reference resolves inside the batch. -/
def batchRefSpec (count : Nat) (now : Timestamp) (r : Rng) : Prop :=
  (batchUsers (generate_batch count now r)).length = count ∧
  (batchProducts (generate_batch count now r)).length = count ∧
  (batchOrders (generate_batch count now r)).length = count ∧
  (∀ i, i < count →
    ((batchOrders (generate_batch count now r)).getD i dummyOrder).user_id =
      ((batchUsers (generate_batch count now r)).getD (i % count) dummyUser).id ∧
    ((batchOrders (generate_batch count now r)).getD i dummyOrder).product_id =
      ((batchProducts (generate_batch count now r)).getD (i % count) dummyProduct).id) ∧
  (∀ o ∈ batchOrders (generate_batch count now r),
    (∃ u ∈ batchUsers (generate_batch count now r), o.user_id = u.id) ∧
    (∃ p ∈ batchProducts (generate_batch count now r), o.product_id = p.id))

/-- The identifiers of two user batches of size n generated back to back
on one rng, in generation order. -/
def twoBatchUserIds (n : Nat) (now : Timestamp) (r : Rng) : List Uuid :=
  ((genList (generate_random_user now) n r).1 ++
    (genList (generate_random_user now) n
      (genList (generate_random_user now) n r).2).1).map User.id

/-- A fixed successful result labelled with a given test identifier. -/
def namedResult (tn : String) : BenchmarkResult :=
  { database := "trivial", test_name := tn, operations := 0, duration_ms := 0,
    operations_per_second := 0, cpu_count := 1, timestamp := 0 }

/-- A minimal conforming backend over the unit store: every operation
succeeds and labels its result canonically. -/
def trivialBackend : Backend Unit Unit :=
  { database_name := "trivial",
    init := fun s => .ok s,
    generate_test_data := fun _ s => .ok s,
    cleanup := fun s => .ok s,
    insert_single_many_times := fun _ s => .ok (namedResult "insert-single-many-times", s),
    insert_many_at_once := fun _ s => .ok (namedResult "insert-many-at-once", s),
    read_by_id_many_times := fun _ s => .ok (namedResult "read-by-id-many-times", s),
    read_many_by_ids := fun _ s => .ok (namedResult "read-many-by-ids", s),
    read_by_column_search := fun _ s => .ok (namedResult "read-by-column-search", s),
    read_with_one_join := fun _ s => .ok (namedResult "read-with-one-join", s),
    read_with_two_joins := fun _ s => .ok (namedResult "read-with-two-joins", s),
    update_single_field_one_entry :=
      fun _ s => .ok (namedResult "update-single-field-one-entry", s),
    update_single_field_many_entries :=
      fun _ s => .ok (namedResult "update-single-field-many-entries", s),
    update_multiple_fields_one_entry :=
      fun _ s => .ok (namedResult "update-multiple-fields-one-entry", s),
    update_multiple_fields_many_entries :=
      fun _ s => .ok (namedResult "update-multiple-fields-many-entries", s) }

/-- The result measure_execution produces for 3 operations finishing
within the same millisecond. -/
def c1witnessResult : BenchmarkResult :=
  { database := "SQLite", test_name := "insert-single-many-times", operations := 3,
    duration_ms := 0, operations_per_second := 3, cpu_count := 1, timestamp := 0 }

/-! ## Theorems -/

/-- Claim C1: for every operation count n, the result of a successful
measure_execution has a non-negative duration_ms, operations_per_second
equal to exactly n when duration_ms is zero, and equal to
n / (duration_ms / 1000) when duration_ms is positive. -/
theorem measure_execution_throughput {ε : Type} (db tn : String)
    (n cpu ns now : Nat) (res : BenchmarkResult)
    (h : measure_execution (ε := ε) db tn n cpu ns now (.ok ()) = .ok res) :
    0 ≤ res.duration_ms ∧
    (res.duration_ms = 0 → res.operations_per_second = (n : ℚ)) ∧
    (0 < res.duration_ms →
      res.operations_per_second = (n : ℚ) / ((res.duration_ms : ℚ) / 1000)) := by
  simp only [measure_execution, Except.ok.injEq] at h
  subst h
  refine ⟨Nat.zero_le _, ?_, ?_⟩
  · intro hd
    have hd2 : ns / 1000000 % 2 ^ 64 = 0 := hd
    show (if ns / 1000000 % 2 ^ 64 > 0 then
        (n : ℚ) / (((ns / 1000000 % 2 ^ 64 : ℕ) : ℚ) / 1000) else (n : ℚ)) = (n : ℚ)
    rw [hd2]
    norm_num
  · intro hd
    have hd2 : 0 < ns / 1000000 % 2 ^ 64 := hd
    show (if ns / 1000000 % 2 ^ 64 > 0 then
        (n : ℚ) / (((ns / 1000000 % 2 ^ 64 : ℕ) : ℚ) / 1000) else (n : ℚ)) =
      (n : ℚ) / (((ns / 1000000 % 2 ^ 64 : ℕ) : ℚ) / 1000)
    rw [if_pos hd2]

/-- Claim C1 witness: measuring 3 operations that complete in under one
millisecond yields duration 0 and throughput exactly 3. -/
theorem measure_execution_throughput_witness :
    0 ≤ c1witnessResult.duration_ms ∧
    (c1witnessResult.duration_ms = 0 →
      c1witnessResult.operations_per_second = ((3 : Nat) : ℚ)) ∧
    (0 < c1witnessResult.duration_ms →
      c1witnessResult.operations_per_second =
        ((3 : Nat) : ℚ) / ((c1witnessResult.duration_ms : ℚ) / 1000)) :=
  measure_execution_throughput (ε := Unit) "SQLite" "insert-single-many-times"
    3 1 0 0 c1witnessResult (by norm_num [measure_execution, c1witnessResult])

/-- Claim C5: before any successful run has stored a snapshot the Results
endpoint reports not found, and once a snapshot is stored the Results
endpoint returns exactly the stored snapshot. -/
theorem results_handler_lifecycle {σ : Type} (s : σ) (res : BenchmarkResults)
    (st : ServerState σ) :
    results_handler (initialServerState s) = .error .notFound ∧
    results_handler (storeSnapshot res st) = .ok res :=
  ⟨rfl, rfl⟩

/-- Claim C9: for each backend, get_cpu_count immediately after set_cpu_count(n)
returns n; the duckdb setter leaves the connection threads setting
untouched and only queues the SET threads statement as a detached task. -/
theorem cpu_count_roundtrip (sq : SqliteStruct) (rk : RocksStruct)
    (dk : DuckStruct) (n : Nat) :
    SqliteBenchmark.get_cpu_count (SqliteBenchmark.set_cpu_count sq n) = n ∧
    RocksDBBenchmark.get_cpu_count (RocksDBBenchmark.set_cpu_count rk n) = n ∧
    DuckdbBenchmark.get_cpu_count (DuckdbBenchmark.set_cpu_count dk n) = n ∧
    (DuckdbBenchmark.set_cpu_count dk n).conn_threads = dk.conn_threads ∧
    (DuckdbBenchmark.set_cpu_count dk n).pending_tasks = dk.pending_tasks ++ [n] :=
  ⟨rfl, rfl, rfl, rfl, rfl⟩

/-- Folding single-key deletions over a list of keys covering every entry
empties the store. -/
theorem foldl_eraseKey_eq_nil {κ α : Type} [DecidableEq κ] :
    ∀ (ks : List κ) (m : List (κ × α)), (∀ p ∈ m, p.1 ∈ ks) →
      ks.foldl (fun m k => eraseKey k m) m = []
  | [], m, h => by
    cases m with
    | nil => rfl
    | cons p ps => exact absurd (h p (List.mem_cons_self p ps)) (List.not_mem_nil p.1)
  | k :: ks, m, h => by
    simp only [List.foldl_cons]
    apply foldl_eraseKey_eq_nil ks
    intro p hp
    have hmem : p ∈ m ∧ ¬ p.1 = k := by
      simpa [eraseKey] using hp
    have := h p hmem.1
    simp only [List.mem_cons] at this
    exact this.resolve_left hmem.2

/-- Iterating over the current keys of a column family and deleting each of
them leaves the column family empty. -/
theorem clearCf_eq_nil {κ α : Type} [DecidableEq κ] (cf : List (κ × α)) :
    clearCf cf = [] :=
  foldl_eraseKey_eq_nil _ _ (fun _ hp => List.mem_map_of_mem Prod.fst hp)

/-- Claim C7: cleanup on each of the three backends removes all benchmark data of
every entity kind from any state, and in particular succeeds (returns ok)
on an already-empty dataset. -/
theorem cleanup_removes_everything (st dst : SqliteDb) (rst : RocksDb) :
    SqliteBenchmark.cleanup st = .ok emptySqliteDb ∧
    DuckdbBenchmark.cleanup dst = .ok emptySqliteDb ∧
    RocksDBBenchmark.cleanup rst = .ok emptyRocksDb ∧
    SqliteBenchmark.cleanup emptySqliteDb = .ok emptySqliteDb ∧
    DuckdbBenchmark.cleanup emptySqliteDb = .ok emptySqliteDb ∧
    RocksDBBenchmark.cleanup emptyRocksDb = .ok emptyRocksDb := by
  refine ⟨rfl, rfl, ?_, rfl, rfl, ?_⟩ <;>
    simp [RocksDBBenchmark.cleanup, emptyRocksDb, clearCf_eq_nil]

/-- Claim C10: generate_test_data(0) succeeds on all three backends and inserts
nothing: the store and the rng come back unchanged, and in particular the
order-pairing loop (whose index expressions take a modulo by the collection
length) is never entered. -/
theorem generate_test_data_zero (st dst : SqliteDb) (rst : RocksDb)
    (now : Timestamp) (r : Rng) :
    SqliteBenchmark.generate_test_data st 0 now r = some (st, r) ∧
    DuckdbBenchmark.generate_test_data dst 0 now r = some (dst, r) ∧
    RocksDBBenchmark.generate_test_data rst 0 now r = some (rst, r) := by
  refine ⟨?_, ?_, ?_⟩ <;>
    simp [SqliteBenchmark.generate_test_data, DuckdbBenchmark.generate_test_data,
      RocksDBBenchmark.generate_test_data, generate_batch, genList, genOrdersAux]

/-- A gen_range(lo..hi) draw lies in [lo, hi) whenever lo < hi. -/
theorem genRange_bounds (lo hi : Nat) (r : Rng) (h : lo < hi) :
    lo ≤ (genRange lo hi r).1 ∧ (genRange lo hi r).1 < hi := by
  refine ⟨Nat.le_add_right _ _, ?_⟩
  have hm : r.natSeq r.natIdx % (hi - lo) < hi - lo :=
    Nat.mod_lt _ (by omega)
  simp only [genRange]
  omega

/-- Claim C6: a generated Product has price equal to an integer number of cents
in [100, 10000) divided by 100 (hence in [1.00, 100.00)) and stock in
[0, 1000); a generated Order carries the caller-supplied user and product
ids, quantity in [1, 10), a unit price in [10.00, 100.00), and total_price
equal to unit price times quantity. -/
theorem generator_field_ranges (now : Timestamp) (uid pid : Uuid) (r : Rng) :
    (∃ cents : ℕ, 100 ≤ cents ∧ cents < 10000 ∧
      (generate_random_product now r).1.price = (cents : ℚ) / 100) ∧
    1 ≤ (generate_random_product now r).1.price ∧
    (generate_random_product now r).1.price < 100 ∧
    0 ≤ (generate_random_product now r).1.stock ∧
    (generate_random_product now r).1.stock < 1000 ∧
    (generate_random_order uid pid now r).1.user_id = uid ∧
    (generate_random_order uid pid now r).1.product_id = pid ∧
    1 ≤ (generate_random_order uid pid now r).1.quantity ∧
    (generate_random_order uid pid now r).1.quantity < 10 ∧
    (∃ unit_price : ℚ, 10 ≤ unit_price ∧ unit_price < 100 ∧
      (generate_random_order uid pid now r).1.total_price =
        unit_price * ((generate_random_order uid pid now r).1.quantity : ℚ)) := by
  obtain ⟨x, y, hpr, hst⟩ :
      ∃ x y : ℕ,
        (generate_random_product now r).1.price = ((100 + x % 9900 : ℕ) : ℚ) / 100 ∧
        (generate_random_product now r).1.stock = ((0 + y % 1000 : ℕ) : Int) :=
    ⟨_, _, rfl, rfl⟩
  obtain ⟨q, p, hu, hp, hq, ht⟩ :
      ∃ q p : ℕ,
        (generate_random_order uid pid now r).1.user_id = uid ∧
        (generate_random_order uid pid now r).1.product_id = pid ∧
        (generate_random_order uid pid now r).1.quantity = ((1 + q % 9 : ℕ) : Int) ∧
        (generate_random_order uid pid now r).1.total_price =
          (((1000 + p % 9000 : ℕ) : ℚ) / 100) * ((1 + q % 9 : ℕ) : ℚ) :=
    ⟨_, _, rfl, rfl, rfl, rfl⟩
  have hx : x % 9900 < 9900 := Nat.mod_lt _ (by norm_num)
  have hy : y % 1000 < 1000 := Nat.mod_lt _ (by norm_num)
  have hqb : q % 9 < 9 := Nat.mod_lt _ (by norm_num)
  have hpb : p % 9000 < 9000 := Nat.mod_lt _ (by norm_num)
  rw [hpr, hst, hu, hp, hq, ht]
  refine ⟨⟨100 + x % 9900, Nat.le_add_right _ _, by omega, rfl⟩, ?_, ?_, ?_, ?_,
    rfl, rfl, ?_, ?_, ?_⟩
  · rw [le_div_iff₀ (by norm_num : (0:ℚ) < 100)]
    norm_num
  · rw [div_lt_iff₀ (by norm_num : (0:ℚ) < 100)]
    norm_num
    exact_mod_cast (by omega : 100 + x % 9900 < 10000)
  · exact_mod_cast Int.ofNat_nonneg _
  · exact_mod_cast (by omega : 0 + y % 1000 < 1000)
  · exact_mod_cast Nat.le_add_right 1 (q % 9)
  · exact_mod_cast (by omega : 1 + q % 9 < 10)
  · refine ⟨((1000 + p % 9000 : ℕ) : ℚ) / 100, ?_, ?_, ?_⟩
    · rw [le_div_iff₀ (by norm_num : (0:ℚ) < 100)]
      norm_num
    · rw [div_lt_iff₀ (by norm_num : (0:ℚ) < 100)]
      norm_num
      exact_mod_cast (by omega : 1000 + p % 9000 < 10000)
    · rw [Int.cast_natCast]

/-- Running a generator count times yields exactly count entities. -/
theorem genList_length {α : Type} (gen : Rng → α × Rng) :
    ∀ (n : Nat) (r : Rng), ((genList gen n r).1).length = n := by
  intro n
  induction n with
  | zero => intro r; rfl
  | succ k ih =>
    intro r
    rcases hgen : gen r with ⟨x, r2⟩
    have hlen := ih r2
    rcases hrec : genList gen k r2 with ⟨xs, r3⟩
    rw [hrec] at hlen
    simp [genList, hgen, hrec, hlen]

/-- The order loop, started at index i with rem iterations on nonempty
user and product collections, succeeds and produces one order per
iteration, order j referencing user (i+j) mod users.length and product
(i+j) mod products.length. -/
theorem genOrdersAux_spec (users : List User) (products : List Product)
    (now : Timestamp) (hu : users.length ≠ 0) (hp : products.length ≠ 0) :
    ∀ (rem i : Nat) (r : Rng),
      ∃ os r2, genOrdersAux users products now i rem r = some (os, r2) ∧
        os.length = rem ∧
        ∀ j, j < rem →
          (os.getD j dummyOrder).user_id =
            (users.getD ((i + j) % users.length) dummyUser).id ∧
          (os.getD j dummyOrder).product_id =
            (products.getD ((i + j) % products.length) dummyProduct).id := by
  intro rem
  induction rem with
  | zero =>
    intro i r
    exact ⟨[], r, rfl, rfl, fun j hj => absurd hj (by omega)⟩
  | succ k ih =>
    intro i r
    rcases hgo : generate_random_order (users.getD (i % users.length) dummyUser).id
        (products.getD (i % products.length) dummyProduct).id now r with ⟨o, r1⟩
    obtain ⟨os, r2, hrec, hlen, hidx⟩ := ih (i + 1) r1
    refine ⟨o :: os, r2, ?_, by simp [hlen], ?_⟩
    · simp only [genOrdersAux]
      rw [if_neg (by push_neg; exact ⟨hu, hp⟩)]
      simp only [hgo, hrec]
    · intro j hj
      cases j with
      | zero =>
        have ho : o = (generate_random_order
            (users.getD (i % users.length) dummyUser).id
            (products.getD (i % products.length) dummyProduct).id now r).1 := by
          rw [hgo]
        constructor
        · show o.user_id = (users.getD ((i + 0) % users.length) dummyUser).id
          rw [ho]
          rfl
        · show o.product_id = (products.getD ((i + 0) % products.length) dummyProduct).id
          rw [ho]
          rfl
      | succ m =>
        have hm := hidx m (by omega)
        rw [show i + 1 + m = i + (m + 1) by omega] at hm
        simpa using hm

/-- Claim C4: for count > 0, the generated batch has count users, count products
and count orders, order i references the id of user i mod count and of
product i mod count, and hence every order reference resolves to an entity
of the same batch. -/
theorem generate_batch_references (count : Nat) (now : Timestamp) (r : Rng)
    (h : 0 < count) : batchRefSpec count now r := by
  rcases hus : genList (generate_random_user now) count r with ⟨users, r1⟩
  rcases hps : genList (generate_random_product now) count r1 with ⟨products, r2⟩
  have hul : users.length = count := by
    have := genList_length (generate_random_user now) count r
    rw [hus] at this
    exact this
  have hpl : products.length = count := by
    have := genList_length (generate_random_product now) count r1
    rw [hps] at this
    exact this
  obtain ⟨os, r3, hrec, hlen, hidx⟩ :=
    genOrdersAux_spec users products now (by omega) (by omega) count 0 r2
  have hbatch : generate_batch count now r = some ((users, products, os), r3) := by
    simp [generate_batch, hus, hps, hrec]
  unfold batchRefSpec
  rw [hbatch]
  simp only [batchUsers, batchProducts, batchOrders]
  refine ⟨hul, hpl, hlen, ?_, ?_⟩
  · intro i hi
    have hm := hidx i hi
    rw [hul, hpl] at hm
    simpa using hm
  · intro o ho
    obtain ⟨j, hj, hoj⟩ := List.mem_iff_getElem.mp ho
    rw [hlen] at hj
    have hjm : j % count < count := Nat.mod_lt _ h
    have hget : os.getD j dummyOrder = o := by
      rw [List.getD_eq_getElem os dummyOrder (by omega), hoj]
    have hm := hidx j hj
    rw [hul, hpl, hget] at hm
    simp only [Nat.zero_add] at hm
    constructor
    · refine ⟨users.getD (j % count) dummyUser, ?_, hm.1⟩
      rw [List.getD_eq_getElem users dummyUser (by omega)]
      exact List.getElem_mem _
    · refine ⟨products.getD (j % count) dummyProduct, ?_, hm.2⟩
      rw [List.getD_eq_getElem products dummyProduct (by omega)]
      exact List.getElem_mem _

/-- Claim C4 witness: a batch of one entity of each kind is referentially
consistent. -/
theorem generate_batch_references_witness : 0 < 1 ∧ batchRefSpec 1 0 idRng :=
  ⟨Nat.one_pos, generate_batch_references 1 0 idRng Nat.one_pos⟩

/-- The ? step succeeds exactly when the operation succeeds and the
continuation succeeds on its output. -/
theorem andThen_ok_iff {σ ε β : Type} {x : Except ε (BenchmarkResult × σ)}
    {f : BenchmarkResult → σ → Except ε β} {c : β} :
    andThen x f = .ok c ↔ ∃ r s, x = .ok (r, s) ∧ f r s = .ok c := by
  cases x with
  | error e => simp [andThen]
  | ok p =>
    cases p with
    | mk r s =>
      simp only [andThen]
      constructor
      · intro h
        exact ⟨r, s, rfl, h⟩
      · rintro ⟨r1, s1, heq, h⟩
        obtain ⟨rfl, rfl⟩ := Prod.mk.inj (Except.ok.inj heq)
        exact h

/-- Claim C2: for every backend, run_all_benchmarks succeeds exactly when
the eleven operations, invoked in the fixed canonical order with the fixed
per-operation counts, all succeed in sequence, in which case the snapshot
collects their eleven results in execution order (so it holds exactly 11
results) and carries the backend name; if any operation fails the whole
run fails and no snapshot is produced. -/
theorem run_all_benchmarks_correct {σ ε : Type} (b : Backend σ ε)
    (now : Timestamp) (s : σ) :
    (∀ res sf, run_all_benchmarks b now s = .ok (res, sf) ↔ RunChain b now s res sf) ∧
    (∀ res sf, run_all_benchmarks b now s = .ok (res, sf) →
      res.results.length = 11 ∧ res.database = b.database_name) := by
  have hiff : ∀ res sf,
      run_all_benchmarks b now s = .ok (res, sf) ↔ RunChain b now s res sf := by
    intro res sf
    unfold run_all_benchmarks RunChain
    simp only [andThen_ok_iff, Except.ok.injEq, Prod.mk.injEq]
  refine ⟨hiff, ?_⟩
  intro res sf h
  obtain ⟨r1, s1, h1, r2, s2, h2, r3, s3, h3, r4, s4, h4, r5, s5, h5, r6, s6, h6,
    r7, s7, h7, r8, s8, h8, r9, s9, h9, r10, s10, h10, r11, s11, h11, hres, -⟩ :=
    (hiff res sf).mp h
  subst hres
  exact ⟨rfl, rfl⟩

/-- Claim C2 witness: the characterisation applied to a concrete minimal
backend over the unit store. -/
theorem run_all_benchmarks_correct_witness :
    (∀ res sf, run_all_benchmarks trivialBackend 0 () = .ok (res, sf) ↔
      RunChain trivialBackend 0 () res sf) ∧
    (∀ res sf, run_all_benchmarks trivialBackend 0 () = .ok (res, sf) →
      res.results.length = 11 ∧ res.database = trivialBackend.database_name) :=
  run_all_benchmarks_correct trivialBackend 0 ()

/-- Claim C3: the Run endpoint performs init, cleanup, generate_test_data(1000),
run_all_benchmarks in that order; on any failure it answers 500 and leaves
the snapshot slot exactly as before; only a fully successful run overwrites
the slot, with the very snapshot returned to the caller. -/
theorem run_benchmark_handler_correct {σ ε : Type} (b : Backend σ ε)
    (now : Timestamp) (st : ServerState σ) :
    (∀ e st2, run_benchmark_handler b now st = (.error e, st2) →
      e = .internalServerError ∧ st2.stored = st.stored) ∧
    (∀ res st2, run_benchmark_handler b now st = (.ok res, st2) →
      st2.stored = some res ∧
      ∃ s1 s2 s3 s4, b.init st.dbState = .ok s1 ∧ b.cleanup s1 = .ok s2 ∧
        b.generate_test_data 1000 s2 = .ok s3 ∧
        run_all_benchmarks b now s3 = .ok (res, s4) ∧ st2.dbState = s4) := by
  constructor
  · intro e st2 h
    unfold run_benchmark_handler at h
    split at h
    · obtain ⟨he, hst⟩ := Prod.mk.inj h
      exact ⟨(Except.error.inj he).symm, by rw [← hst]⟩
    · split at h
      · obtain ⟨he, hst⟩ := Prod.mk.inj h
        exact ⟨(Except.error.inj he).symm, by rw [← hst]⟩
      · split at h
        · obtain ⟨he, hst⟩ := Prod.mk.inj h
          exact ⟨(Except.error.inj he).symm, by rw [← hst]⟩
        · split at h
          · obtain ⟨he, hst⟩ := Prod.mk.inj h
            exact ⟨(Except.error.inj he).symm, by rw [← hst]⟩
          · exact absurd (Prod.mk.inj h).1 (by simp)
  · intro res st2 h
    unfold run_benchmark_handler at h
    split at h
    · exact absurd (Prod.mk.inj h).1 (by simp)
    · next s1 h1 =>
      split at h
      · exact absurd (Prod.mk.inj h).1 (by simp)
      · next s2 h2 =>
        split at h
        · exact absurd (Prod.mk.inj h).1 (by simp)
        · next s3 h3 =>
          split at h
          · exact absurd (Prod.mk.inj h).1 (by simp)
          · next results s4 h4 =>
            obtain ⟨hr, hst⟩ := Prod.mk.inj h
            obtain rfl : results = res := Except.ok.inj hr
            exact ⟨by rw [← hst]; rfl, s1, s2, s3, s4, h1, h2, h3, h4,
              by rw [← hst]; rfl⟩

/-- Mapping over range (k+1) peels off the head index. -/
theorem range_map_cons {β : Type} (f : ℕ → β) (k : ℕ) :
    (List.range (k + 1)).map f = f 0 :: (List.range k).map (fun j => f (j + 1)) := by
  rw [List.range_succ_eq_map, List.map_cons, List.map_map]
  rfl

/-- Generating n users consumes one uuid draw per user: user j of the
batch carries uuid stream value uuidIdx + j reduced mod 2^128, and the rng
comes out with its uuid cursor advanced by n on the same stream. -/
theorem genList_user_ids (now : Timestamp) :
    ∀ (n : Nat) (r : Rng),
      ((genList (generate_random_user now) n r).1).map User.id =
        (List.range n).map (fun j => r.uuidSeq (r.uuidIdx + j) % 2 ^ 128) ∧
      ((genList (generate_random_user now) n r).2).uuidSeq = r.uuidSeq ∧
      ((genList (generate_random_user now) n r).2).uuidIdx = r.uuidIdx + n := by
  intro n
  induction n with
  | zero => intro r; exact ⟨rfl, rfl, rfl⟩
  | succ k ih =>
    intro r
    rcases hgen : generate_random_user now r with ⟨u, r1⟩
    have hu_id : u.id = r.uuidSeq r.uuidIdx % 2 ^ 128 := by
      rw [show u = (generate_random_user now r).1 by rw [hgen]]
      rfl
    have hr1Seq : r1.uuidSeq = r.uuidSeq := by
      rw [show r1 = (generate_random_user now r).2 by rw [hgen]]
      rfl
    have hr1Idx : r1.uuidIdx = r.uuidIdx + 1 := by
      rw [show r1 = (generate_random_user now r).2 by rw [hgen]]
      rfl
    obtain ⟨ihids0, ihseq0, ihidx0⟩ := ih r1
    rcases hrec : genList (generate_random_user now) k r1 with ⟨us, r2⟩
    rw [hrec] at ihids0 ihseq0 ihidx0
    have ihids : List.map User.id us =
        List.map (fun j => r1.uuidSeq (r1.uuidIdx + j) % 2 ^ 128) (List.range k) :=
      ihids0
    have ihseq : r2.uuidSeq = r1.uuidSeq := ihseq0
    have ihidx : r2.uuidIdx = r1.uuidIdx + k := ihidx0
    refine ⟨?_, ?_, ?_⟩
    · simp only [genList, hgen, hrec, List.map_cons]
      rw [range_map_cons]
      have hhead : u.id = r.uuidSeq (r.uuidIdx + 0) % 2 ^ 128 := hu_id
      have htail : List.map User.id us =
          List.map (fun j => r.uuidSeq (r.uuidIdx + (j + 1)) % 2 ^ 128)
            (List.range k) := by
        rw [ihids, hr1Seq, hr1Idx]
        apply List.map_congr_left
        intro j hj
        have harg : r.uuidIdx + 1 + j = r.uuidIdx + (j + 1) := by omega
        rw [harg]
      rw [hhead, htail]
    · simp only [genList, hgen, hrec]
      rw [ihseq, hr1Seq]
    · simp only [genList, hgen, hrec]
      rw [ihidx, hr1Idx]
      omega

/-- The 2n identifiers of two back-to-back user batches are the uuid
stream values at offsets 0 to 2n-1, each reduced mod 2^128. -/
theorem twoBatchUserIds_formula (n : Nat) (now : Timestamp) (r : Rng) :
    twoBatchUserIds n now r =
      (List.range (2 * n)).map (fun j => r.uuidSeq (r.uuidIdx + j) % 2 ^ 128) := by
  obtain ⟨h1, hseq, hidx⟩ := genList_user_ids now n r
  obtain ⟨h2, -, -⟩ :=
    genList_user_ids now n ((genList (generate_random_user now) n r).2)
  rw [hseq, hidx] at h2
  unfold twoBatchUserIds
  rw [List.map_append, h1, h2]
  have hsplit : (List.range (n + n)).map
      (fun j => r.uuidSeq (r.uuidIdx + j) % 2 ^ 128) =
      (List.range n).map (fun j => r.uuidSeq (r.uuidIdx + j) % 2 ^ 128) ++
      (List.range n).map (fun j => r.uuidSeq (r.uuidIdx + n + j) % 2 ^ 128) := by
    rw [List.range_add, List.map_append, List.map_map]
    congr 1
    apply List.map_congr_left
    intro j hj
    simp only [Function.comp_apply]
    have harg : r.uuidIdx + (n + j) = r.uuidIdx + n + j := by omega
    rw [harg]
  rw [show 2 * n = n + n by omega, hsplit]

/-- Claim C8, amended: provided the 128-bit entropy stream feeding Uuid::new_v4
never repeats a value among the 2n draws, generating two batches of n users
yields 2n identifiers that are pairwise distinct. -/
theorem two_batches_distinct_ids (n : Nat) (now : Timestamp) (r : Rng)
    (hinj : ∀ i j, i < 2 * n → j < 2 * n →
      r.uuidSeq (r.uuidIdx + i) % 2 ^ 128 = r.uuidSeq (r.uuidIdx + j) % 2 ^ 128 →
      i = j) :
    (twoBatchUserIds n now r).length = 2 * n ∧ (twoBatchUserIds n now r).Nodup := by
  rw [twoBatchUserIds_formula]
  constructor
  · simp
  · refine List.Nodup.map_on ?_ (List.nodup_range (2 * n))
    intro i hi j hj hf
    exact hinj i j (List.mem_range.mp hi) (List.mem_range.mp hj) hf

/-- Claim C8 witness: with an injective entropy stream, two batches of two users
carry four distinct identifiers. -/
theorem two_batches_distinct_ids_witness :
    (∀ i j, i < 2 * 2 → j < 2 * 2 →
      idRng.uuidSeq (idRng.uuidIdx + i) % 2 ^ 128 =
        idRng.uuidSeq (idRng.uuidIdx + j) % 2 ^ 128 → i = j) ∧
    ((twoBatchUserIds 2 0 idRng).length = 2 * 2 ∧
      (twoBatchUserIds 2 0 idRng).Nodup) := by
  have hpow : (2 : ℕ) ^ 128 = 340282366920938463463374607431768211456 := by
    norm_num
  have hinj : ∀ i j, i < 2 * 2 → j < 2 * 2 →
      idRng.uuidSeq (idRng.uuidIdx + i) % 2 ^ 128 =
        idRng.uuidSeq (idRng.uuidIdx + j) % 2 ^ 128 → i = j := by
    intro i j hi hj h
    simp only [idRng] at h
    rw [hpow] at h
    rw [Nat.mod_eq_of_lt (by omega), Nat.mod_eq_of_lt (by omega)] at h
    omega
  exact ⟨hinj, two_batches_distinct_ids 2 0 idRng hinj⟩

/-- Claim C8 counterexample: nothing in the generator prevents identifier
collisions - on the all-zero entropy stream, two generated batches of 1000
users each carry 2000 identical identifiers, so the unconditional claim
that no two generated identifiers collide is false. -/
theorem two_batches_ids_collide :
    ¬ (twoBatchUserIds 1000 0 constRng).Nodup := by
  have h : twoBatchUserIds 1000 0 constRng =
      (List.range (2 * 1000)).map (fun _ => (0 : ℕ)) := by
    rw [twoBatchUserIds_formula]
    apply List.map_congr_left
    intro j hj
    simp [constRng]
  have h2 : (List.range (2 * 1000)).map (fun _ => (0 : ℕ)) =
      List.replicate 2000 (0 : ℕ) := by
    rw [List.map_const', List.length_range]
  rw [h, h2]
  simp only [List.nodup_replicate]
  omega

end DBRace
